import Mathlib

/-!
Verification of the exchange-finder frontend (React) against its
natural-language specification.  The definitions below are a shallow
embedding of the JavaScript source files under `src/frontend/src` and
`src/unnamed`; each definition's doc comment names the source function
it embeds.  Backend components that are not part of the repository
snapshot (the FastAPI job registry and cache manager) are modelled from
the spec where a claim needs them; those definitions say so explicitly.
-/

namespace ExchangeFinder

/-! ## JSON-ish values

Request bodies built by `api.js` are modelled as association lists of
field name to a small JSON value type (only the shapes the client
actually sends: null, numbers, strings, arrays of strings). -/

inductive JsonVal where
  | null
  | num (n : Int)
  | str (s : String)
  | arr (elems : List String)
  deriving DecidableEq

/-! ## api.js : searchDatabase -/

/-- Parameters of `api.searchDatabase` (`src/frontend/src/services/api.js`,
`searchDatabase(targetModules, targetCountries = null, targetSemester = null,
minMappableModules = 1)`). -/
structure SearchDbArgs where
  targetModules : List String
  targetCountries : Option (List String)
  targetSemester : Option Int
  minMappableModules : Int
  deriving DecidableEq

/-- Body that `api.searchDatabase` posts to `/api/search/db`: exactly the
four fields `target_modules`, `target_countries`, `target_semester`,
`min_mappable_modules`, with `null` for absent optional values
(`api.js` lines 162-170). -/
def searchDatabaseBody (a : SearchDbArgs) : List (String × JsonVal) :=
  [ ("target_modules", JsonVal.arr a.targetModules),
    ("target_countries",
      match a.targetCountries with
      | none => JsonVal.null
      | some cs => JsonVal.arr cs),
    ("target_semester",
      match a.targetSemester with
      | none => JsonVal.null
      | some n => JsonVal.num n),
    ("min_mappable_modules", JsonVal.num a.minMappableModules) ]

/-! ## JavaScript string helpers

The source is JavaScript; `String.prototype.trim` and
`String.prototype.toUpperCase` are embedded as character-list functions
(whitespace stripping at both ends, character-wise upcasing). -/

/-- JS `s.trim()`: the string without leading and trailing whitespace. -/
def jsTrim (s : String) : String :=
  String.mk (((s.data.dropWhile Char.isWhitespace).reverse.dropWhile
    Char.isWhitespace).reverse)

/-- JS `s.toUpperCase()`: character-wise upcasing. -/
def jsToUpper (s : String) : String :=
  String.mk (s.data.map Char.toUpper)

/-! ## Credential and session (Login.jsx, useSession in part_002, App.jsx) -/

/-- Credential shape `{username, password, domain}` built by
`Login.jsx handleSubmit`. -/
structure Credential where
  username : String
  password : String
  domain : String
  deriving DecidableEq

/-- The public-build `App` (`src/unnamed/part_000`) renders `<Search />`
with no credentials prop at all: the search surface receives no
credential. -/
def publicAppSearchCredentials : Option Credential := none

/-- Session object created by `useSession.createSession`
(`src/unnamed/part_002`): `{credentials, timestamp}` held in React
state. -/
structure SessionData where
  credentials : Credential
  timestamp : String
  deriving DecidableEq

/-- Source `useSession.createSession(credentials)`: stores
`{credentials, timestamp: now}` in the in-memory session state
(replacing any previous state). -/
def createSession (credentials : Credential) (now : String) : Option SessionData :=
  some { credentials := credentials, timestamp := now }

/-- Source `useSession.clearSession()`: sets the session state to `null`. -/
def clearSession : Option SessionData := none

/-- Source `useSession.isAuthenticated()`: `session !== null && session.credentials
!== null`; in the model the credentials field is always present, so this
is just presence of the session. -/
def isAuthenticated (session : Option SessionData) : Bool :=
  session.isSome

/-- Source `useSession.getCredentials()`: `session?.credentials || null`. -/
def getCredentials (session : Option SessionData) : Option Credential :=
  session.map (fun s => s.credentials)

/-! ## Login.jsx : handleSubmit -/

/-- Outcome of the single `api.verifyLogin` round trip as observed by
`Login.jsx handleSubmit`: the portal reports success, the portal reports
failure (`result.success` false, with an optional message), or the
request itself throws (network/HTTP error with a message). -/
inductive VerifyOutcome where
  | success
  | failed (message : Option String)
  | requestFailed (message : String)
  deriving DecidableEq

/-- Observable effects of one `handleSubmit` invocation: how many
`api.verifyLogin` calls were made, the `loginError` state afterwards,
whether `onLogin` was called (and with which credential), and the field
validation errors. -/
structure SubmitEffects where
  verifyCalls : Nat
  loginError : Option String
  sessionCreated : Option Credential
  fieldErrors : List String
  deriving DecidableEq

/-- Source `Login.jsx validateForm`: requires a non-blank username and a
non-empty password. -/
def validateForm (username password : String) : List String :=
  (if jsTrim username = "" then ["Username is required"] else [])
    ++ (if password = "" then ["Password is required"] else [])

/-- Source `Login.jsx handleSubmit` (lines 33-67): if validation fails, no
request is made; otherwise exactly one `api.verifyLogin` call is made
and, on a reported failure, `loginError` is set
(`result.message || 'Login failed'`); on a thrown request error,
`loginError` is set to `Error: <msg>`; only on success is `onLogin`
called with the credentials.  There is no retry path. -/
def handleSubmit (username password domain : String) (outcome : VerifyOutcome) :
    SubmitEffects :=
  if validateForm username password = [] then
    match outcome with
    | VerifyOutcome.success =>
        { verifyCalls := 1, loginError := none,
          sessionCreated := some { username := jsTrim username, password := password, domain := domain },
          fieldErrors := [] }
    | VerifyOutcome.failed m =>
        { verifyCalls := 1, loginError := some (m.getD "Login failed"),
          sessionCreated := none, fieldErrors := [] }
    | VerifyOutcome.requestFailed m =>
        { verifyCalls := 1, loginError := some ("Error: " ++ m),
          sessionCreated := none, fieldErrors := [] }
  else
    { verifyCalls := 0, loginError := none, sessionCreated := none,
      fieldErrors := validateForm username password }

/-! ## ModuleSelector.jsx -/

/-- One entry of the selected-modules list: `{code, name}`. -/
structure ModuleEntry where
  code : String
  name : String
  deriving DecidableEq

/-- Source `ModuleSelector.jsx handleAddModule` (lines 13-34): trims and
uppercases the entered code, rejects an empty or already-present code
(leaving the list unchanged), otherwise appends one entry whose name
falls back to the code (`name || code`). -/
def handleAddModule (selectedModules : List ModuleEntry) (moduleCode moduleName : String) :
    List ModuleEntry :=
  let code := jsToUpper (jsTrim moduleCode)
  let name := jsTrim moduleName
  if code = "" then selectedModules
  else if selectedModules.any (fun m => m.code == code) then selectedModules
  else selectedModules ++ [{ code := code, name := if name = "" then code else name }]

/-- Source `ModuleSelector.jsx handleRemoveModule` (lines 36-38): keeps exactly
the entries whose code differs from the removed one. -/
def handleRemoveModule (selectedModules : List ModuleEntry) (code : String) :
    List ModuleEntry :=
  selectedModules.filter (fun m => m.code != code)

/-! ## Search.jsx : handleSearch and the view-state logic -/

/-- Source `Search.jsx handleSearch` (lines 49-73): returns `none` when no module
is selected (the handler alerts and returns without a request);
otherwise the request body produced by `api.searchDatabase`.  The
component calls `api.searchDatabase(selectedModules.map(m => m.code),
selectedCountries.length > 0 ? selectedCountries : null,
minMappableModules)` with three positional arguments, so by JavaScript
positional binding the `minMappableModules` value is received by the
`targetSemester` parameter of `searchDatabase`, and the
`minMappableModules` parameter takes its declared default `1`. -/
def handleSearchRequest (selectedModules : List ModuleEntry)
    (selectedCountries : List String) (minMappableModules : Int) :
    Option (List (String × JsonVal)) :=
  if selectedModules.length = 0 then none
  else
    some (searchDatabaseBody
      { targetModules := selectedModules.map (fun m => m.code)
        targetCountries :=
          if selectedCountries.length > 0 then some selectedCountries else none
        targetSemester := some minMappableModules
        minMappableModules := 1 })

/-- Database status returned by `/api/admin/database/status` as read by
`Search.jsx` (`populated` gates the form; the totals are display-only). -/
structure DbStatus where
  populated : Bool
  totalUniversities : Nat
  totalMappings : Nat
  lastScrape : Option String
  deriving DecidableEq

/-- One search result as keyed/rendered by `Search.jsx` (only identity
fields are needed by the view-state logic modelled here). -/
structure UniversityResult where
  rank : Nat
  name : String
  deriving DecidableEq

/-- The `Search` component state relevant to which block renders:
`dbStatus`, `results` (null before/after reset, a list after a
successful response), `error`, `isSearching`. -/
structure SearchViewState where
  dbStatus : Option DbStatus
  results : Option (List UniversityResult)
  error : Option String
  isSearching : Bool
  deriving DecidableEq

/-- Source `Search.jsx` line 81: `showForm = !isSearching && !results && !error`
(JS: `null` is falsy, a list — even empty — is truthy). -/
def showForm (s : SearchViewState) : Bool :=
  !s.isSearching && s.results.isNone && s.error.isNone

/-- Source `Search.jsx` line 82: `showResults = !isSearching && results`. -/
def showResults (s : SearchViewState) : Bool :=
  !s.isSearching && s.results.isSome

/-- Source `Search.jsx` line 83: `showError = !isSearching && error && !results`. -/
def showSearchError (s : SearchViewState) : Bool :=
  !s.isSearching && s.error.isSome && s.results.isNone

/-- Reading of `dbStatus?.populated` coerced to a boolean (absent status counts as
not populated, as in `!dbStatus?.populated`). -/
def dbPopulated (s : SearchViewState) : Bool :=
  match s.dbStatus with
  | some d => d.populated
  | none => false

/-- Source `Search.jsx` lines 107-113: the "Database is empty, run a scrape
first" warning renders inside the form block when the status is loaded
and not populated. -/
def emptyDbWarningShown (s : SearchViewState) : Bool :=
  showForm s &&
    (match s.dbStatus with
     | some d => !d.populated
     | none => false)

/-- Source `Search.jsx` line 168: the search button is
`disabled={isSearching || !dbStatus?.populated}`; this is the enabled
complement. -/
def searchButtonEnabled (s : SearchViewState) : Bool :=
  !(s.isSearching || !dbPopulated s)

/-- Source `Search.jsx` lines 238-247: the "No universities found matching your
criteria" card renders inside the results block when
`results.length === 0`. -/
def noMatchMessageShown (s : SearchViewState) : Bool :=
  showResults s &&
    (match s.results with
     | some r => decide (r.length = 0)
     | none => false)

/-! ## websocket.js : WebSocketSearchClient -/

/-- Message types handled by `WebSocketSearchClient`.  The constructor
initializes handler lists for `progress`, `complete` and `error`; any
other type falls through to `messageHandlers[type] || []`. -/
inductive WsMsgType where
  | progress
  | complete
  | error
  | other (tag : String)
  deriving DecidableEq

/-- Source `websocket.js` line 93: the types that trigger the automatic
disconnect (`type === 'complete' || type === 'error'`). -/
def isTerminalMsg : WsMsgType → Bool
  | WsMsgType.complete => true
  | WsMsgType.error => true
  | _ => false

/-- A registered message handler, identified by registration index; the
`throws` flag records whether invoking it raises an exception. -/
structure Handler where
  id : Nat
  throws : Bool
  deriving DecidableEq

/-- The `messageHandlers` map of `WebSocketSearchClient`: one list per
initialized type, in registration order (`on` pushes to the end). -/
structure HandlerRegistry where
  progressHandlers : List Handler
  completeHandlers : List Handler
  errorHandlers : List Handler
  deriving DecidableEq

/-- Lookup `this.messageHandlers[type] || []`. -/
def handlersFor (r : HandlerRegistry) : WsMsgType → List Handler
  | WsMsgType.progress => r.progressHandlers
  | WsMsgType.complete => r.completeHandlers
  | WsMsgType.error => r.errorHandlers
  | WsMsgType.other _ => []

/-- Invoking one handler: either it returns normally or it raises. -/
def invokeHandler (h : Handler) : Except String Nat :=
  if h.throws then Except.error "handler threw" else Except.ok h.id

/-- The `handlers.forEach` loop of `_handleMessage` (lines 84-90): each
invocation is wrapped in `try { handler(message) } catch (error)
{ console.error(...) }`, so a raising handler is still invoked (its id is
recorded) and iteration continues with the rest of the list. -/
def forEachCaught : List Handler → List Nat
  | [] => []
  | h :: rest =>
      (match invokeHandler h with
       | Except.ok i => i
       | Except.error _ => h.id) :: forEachCaught rest

/-- What one `_handleMessage(message)` call does with a typed message:
which handlers get invoked (in order), and whether the auto-disconnect
`setTimeout(() => this.disconnect(), 100)` is scheduled afterwards. -/
structure DispatchResult where
  invoked : List Nat
  disconnectScheduled : Bool
  deriving DecidableEq

/-- Source `websocket.js _handleMessage` (lines 74-96) for a message carrying a
type: run every registered handler for that type under the per-handler
catch, then schedule the disconnect iff the type is terminal. -/
def handleMessageDispatch (r : HandlerRegistry) (t : WsMsgType) : DispatchResult :=
  { invoked := forEachCaught (handlersFor r t),
    disconnectScheduled := isTerminalMsg t }

/-- Connection-level state of `WebSocketSearchClient`: whether the
socket is open, whether a disconnect has been scheduled by a terminal
message but has not yet executed (the 100 ms `setTimeout`), and the
sequence of messages delivered to subscribers so far. -/
structure WsClientState where
  connected : Bool
  pendingDisconnect : Bool
  delivered : List WsMsgType
  deriving DecidableEq

/-- Events of the client's event loop: a message arriving on the open
socket, or the scheduled disconnect timer firing. -/
inductive WsEvent where
  | recv (t : WsMsgType)
  | timerFire
  deriving DecidableEq

/-- One event-loop step.  A received message is dispatched (delivered to
subscribers) only while the socket is open; a terminal message schedules
the disconnect rather than closing immediately (`setTimeout(...,100)`).
When the timer fires, `disconnect()` closes the socket and nulls
`this.ws`, after which `onmessage` never fires again. -/
def wsStep (s : WsClientState) : WsEvent → WsClientState
  | WsEvent.recv t =>
      if s.connected then
        { s with delivered := s.delivered ++ [t],
                 pendingDisconnect := s.pendingDisconnect || isTerminalMsg t }
      else s
  | WsEvent.timerFire =>
      if s.pendingDisconnect then
        { s with connected := false, pendingDisconnect := false }
      else s

/-- Run the client over a sequence of event-loop events. -/
def wsRun (s : WsClientState) (events : List WsEvent) : WsClientState :=
  events.foldl wsStep s

/-! ## AdminPanel (part_003) and the job registry -/

/-- Job statuses as shown by the admin panel (`scrapeJob.status`). -/
inductive JobStatus where
  | queued
  | running
  | completed
  | failed
  | cancelled
  deriving DecidableEq

/-- Statuses that end a job run (completed / failed / cancelled). -/
def isTerminalJobStatus : JobStatus → Bool
  | JobStatus.completed => true
  | JobStatus.failed => true
  | JobStatus.cancelled => true
  | _ => false

/-- The admin panel's view of the tracked scrape job. -/
structure ScrapeJobView where
  jobId : Nat
  status : JobStatus
  deriving DecidableEq

/-- Source `part_003 AdminPanel` (lines 203-265): the scrape-controls block
renders the cancel/force-cancel buttons when
`scrapeJob?.status === 'running'` and the Start-Full-Scrape button
otherwise; this is whether the start button is offered. -/
def adminOffersStart (scrapeJob : Option ScrapeJobView) : Bool :=
  match scrapeJob with
  | some j => !(j.status == JobStatus.running)
  | none => true

/-- Rejection reason of `start` while a job is running. -/
inductive StartDenied where
  | alreadyRunning
  deriving DecidableEq

/-- Modelled from the spec: the backend `JobRegistry` behind
`POST /api/admin/scrape` is not part of the repository snapshot (only
its caller `api.startScrape` and the AdminPanel are under `src/`).
Per spec section 4.4 / 9, it is a single-slot registry tracking the
latest job. -/
structure JobRegistry where
  latest : Option (Nat × JobStatus)
  deriving DecidableEq

/-- Modelled from the spec: `start(credential, scope) ->
Result<JobId, AlreadyRunningError>` — "start fails with
AlreadyRunningError if any job currently has status Running"; otherwise
a new job is recorded with status Running before orchestration begins. -/
def registryStart (r : JobRegistry) (newId : Nat) : Except StartDenied JobRegistry :=
  match r.latest with
  | some (_, st) =>
      if st == JobStatus.running then Except.error StartDenied.alreadyRunning
      else Except.ok { latest := some (newId, JobStatus.running) }
  | none => Except.ok { latest := some (newId, JobStatus.running) }

/-- Modelled from the spec: the registry records the tracked job's
terminal status (completion, failure, or cancellation) on the latest
job. -/
def registrySetStatus (r : JobRegistry) (st : JobStatus) : JobRegistry :=
  { latest := r.latest.map (fun j => (j.1, st)) }

/-! ## api.js : cache administration -/

/-- Endpoint of `api.clearCache` (`api.js` line 50). -/
def clearCacheEndpoint : String := "/api/cache/clear"

/-- Endpoint of `api.clearUniversityCache` (`api.js` line 59). -/
def clearUniversityCacheEndpoint : String := "/api/cache/clear/universities"

/-- Endpoint of `api.clearMappingCache` (`api.js` line 68). -/
def clearMappingCacheEndpoint : String := "/api/cache/clear/mappings"

/-- Modelled from the spec: the backend cache store behind the three
clear endpoints is not part of the repository snapshot.  Per spec
sections 3 / 4.2, it holds two expiry classes of entries: reference
class (university/discovery data) and query class (mapping results);
entries are identified by name. -/
structure CacheState where
  referenceEntries : List String
  queryEntries : List String
  deriving DecidableEq

/-- Modelled from the spec and `API_README`: each clear operation returns
the names of the removed entries (`cleared_items`) and their count. -/
structure CacheClearResult where
  clearedCount : Nat
  clearedItems : List String
  deriving DecidableEq

/-- Modelled from the spec: `clear-all()` removes every cache entry and
returns the removed names and count. -/
def clearAllCaches (s : CacheState) : CacheState × CacheClearResult :=
  ({ referenceEntries := [], queryEntries := [] },
   { clearedCount := (s.referenceEntries ++ s.queryEntries).length,
     clearedItems := s.referenceEntries ++ s.queryEntries })

/-- Modelled from the spec: `clear-reference-class()` removes exactly the
reference-class (university) entries. -/
def clearReferenceCaches (s : CacheState) : CacheState × CacheClearResult :=
  ({ referenceEntries := [], queryEntries := s.queryEntries },
   { clearedCount := s.referenceEntries.length,
     clearedItems := s.referenceEntries })

/-- Modelled from the spec: `clear-query-class()` removes exactly the
query-class (mapping) entries. -/
def clearQueryCaches (s : CacheState) : CacheState × CacheClearResult :=
  ({ referenceEntries := s.referenceEntries, queryEntries := [] },
   { clearedCount := s.queryEntries.length,
     clearedItems := s.queryEntries })

/-! ## Theorems -/

/-- Claim C1 (code bug, evaluated at the failing input): submitting the
search form with one selected module `SC4001`, no countries, and
minimum-mappable-modules 2 produces a request whose `target_semester`
field carries the user's minimum-mappable value 2 and whose
`min_mappable_modules` field carries the parameter default 1 — not, as
the claim states, `min_mappable_modules = 2` and `target_semester =
null`.  The cause is `Search.jsx` passing `minMappableModules` as the
third positional argument of `api.searchDatabase`, whose third parameter
is documented as `targetSemester`. -/
theorem c1_min_mappable_misplaced :
    handleSearchRequest [{ code := "SC4001", name := "SC4001" }] [] 2 =
      some [ ("target_modules", JsonVal.arr ["SC4001"]),
             ("target_countries", JsonVal.null),
             ("target_semester", JsonVal.num 2),
             ("min_mappable_modules", JsonVal.num 1) ] := by
  rfl

/-- Claim C2, counterexample: after a successful login the credential is
retained, not dropped.  `App.jsx` wires `onLogin` to
`useSession.createSession`, and the session state created for a concrete
credential still yields that credential via `getCredentials` after the
authentication attempt has finished (and `App` passes
`session.credentials` on to `Search`). -/
theorem c2_counterexample :
    getCredentials
        (createSession
          { username := "AJITESH001", password := "hunter2", domain := "Student" }
          "2026-01-01T00:00:00Z") =
      some { username := "AJITESH001", password := "hunter2", domain := "Student" } := by
  rfl

/-- Claim C2, amended: credentials are kept only in the in-memory session
state — `createSession` stores the credential there, where it remains
until `clearSession` (logout) drops it; no browser persistence API is
used, so nothing survives a page refresh. -/
theorem c2_session_retention (c : Credential) (now : String) :
    getCredentials (createSession c now) = some c
    ∧ getCredentials clearSession = none
    ∧ isAuthenticated clearSession = false := by
  exact ⟨rfl, rfl, rfl⟩

/-- Claim C7: every request issued by `api.searchDatabase` carries
exactly the fields `target_modules`, `target_countries`,
`target_semester`, `min_mappable_modules` (in that order) and no
`credentials` field; and the public `App` mounts the search surface with
no credential at all. -/
theorem c7_search_request_fields (a : SearchDbArgs) :
    (searchDatabaseBody a).map Prod.fst =
      ["target_modules", "target_countries", "target_semester", "min_mappable_modules"]
    ∧ "credentials" ∉ (searchDatabaseBody a).map Prod.fst
    ∧ publicAppSearchCredentials = none := by
  refine ⟨rfl, ?_, rfl⟩
  intro h
  simp only [searchDatabaseBody, List.map_cons, List.map_nil] at h
  simp at h

/-- Claim C8: the cache administration surface exposes three operations
on three pairwise distinct endpoints, and each clear operation hands the
caller the names and count of exactly the entries it removed (all
entries, the reference/university class, or the query/mapping class
respectively). -/
theorem c8_cache_admin (s : CacheState) :
    (clearCacheEndpoint ≠ clearUniversityCacheEndpoint
      ∧ clearCacheEndpoint ≠ clearMappingCacheEndpoint
      ∧ clearUniversityCacheEndpoint ≠ clearMappingCacheEndpoint)
    ∧ ((clearAllCaches s).2.clearedItems = s.referenceEntries ++ s.queryEntries
      ∧ (clearAllCaches s).2.clearedCount = (clearAllCaches s).2.clearedItems.length
      ∧ (clearAllCaches s).1 = { referenceEntries := [], queryEntries := [] })
    ∧ ((clearReferenceCaches s).2.clearedItems = s.referenceEntries
      ∧ (clearReferenceCaches s).2.clearedCount = s.referenceEntries.length
      ∧ (clearReferenceCaches s).1 =
          { referenceEntries := [], queryEntries := s.queryEntries })
    ∧ ((clearQueryCaches s).2.clearedItems = s.queryEntries
      ∧ (clearQueryCaches s).2.clearedCount = s.queryEntries.length
      ∧ (clearQueryCaches s).1 =
          { referenceEntries := s.referenceEntries, queryEntries := [] }) := by
  exact ⟨⟨by decide, by decide, by decide⟩,
    ⟨rfl, rfl, rfl⟩, ⟨rfl, rfl, rfl⟩, ⟨rfl, rfl, rfl⟩⟩

/-- Claim C3, counterexample: receiving a `complete` message does not
close the connection — `_handleMessage` only schedules `disconnect()`
100 ms later — so a `progress` message arriving before the scheduled
disconnect executes is still delivered to subscribers, after the
terminal event. -/
theorem c3_counterexample :
    (wsRun { connected := true, pendingDisconnect := false, delivered := [] }
        [WsEvent.recv WsMsgType.complete, WsEvent.recv WsMsgType.progress]).delivered =
      [WsMsgType.complete, WsMsgType.progress]
    ∧ (wsRun { connected := true, pendingDisconnect := false, delivered := [] }
        [WsEvent.recv WsMsgType.complete]).connected = true := by
  exact ⟨rfl, rfl⟩

/-- While the socket is closed, no step reconnects it and nothing more
is delivered to subscribers. -/
theorem wsRun_closed_frozen (s : WsClientState) (events : List WsEvent)
    (h : s.connected = false) :
    (wsRun s events).connected = false ∧ (wsRun s events).delivered = s.delivered := by
  induction events generalizing s with
  | nil => exact ⟨h, rfl⟩
  | cons e rest ih =>
      have hstep : (wsStep s e).connected = false ∧ (wsStep s e).delivered = s.delivered := by
        cases e with
        | recv t => simp [wsStep, h]
        | timerFire =>
            cases hp : s.pendingDisconnect <;> simp [wsStep, hp, h]
      have := ih (wsStep s e) hstep.1
      exact ⟨this.1, hstep.2 ▸ this.2⟩

/-- Claim C3, amended: a terminal (`complete`/`error`) message received
on the open connection schedules the disconnect; once the scheduled
disconnect executes the connection is closed; and from any closed state
no further progress, complete, or error events are ever delivered to
subscribers. -/
theorem c3_terminal_then_closed (s s' : WsClientState) (t : WsMsgType)
    (events : List WsEvent) (hconn : s.connected = true)
    (hterm : isTerminalMsg t = true) (hclosed : s'.connected = false) :
    (wsStep s (WsEvent.recv t)).pendingDisconnect = true
    ∧ (wsStep (wsStep s (WsEvent.recv t)) WsEvent.timerFire).connected = false
    ∧ (wsRun s' events).connected = false
    ∧ (wsRun s' events).delivered = s'.delivered := by
  have h1 : (wsStep s (WsEvent.recv t)).pendingDisconnect = true := by
    simp [wsStep, hconn, hterm]
  have h2 : (wsStep (wsStep s (WsEvent.recv t)) WsEvent.timerFire).connected = false := by
    simp [wsStep, hconn, hterm]
  have h3 := wsRun_closed_frozen s' events hclosed
  exact ⟨h1, h2, h3.1, h3.2⟩

/-- Claim C3 witness: the amended theorem at a concrete run — an open
client receiving `complete`, and a closed client that already delivered
the terminal event facing a late `progress` message. -/
theorem c3_witness :
    ((({ connected := true, pendingDisconnect := false, delivered := [] } :
        WsClientState).connected = true)
      ∧ isTerminalMsg WsMsgType.complete = true
      ∧ (({ connected := false, pendingDisconnect := false,
            delivered := [WsMsgType.complete] } : WsClientState).connected = false))
    ∧ ((wsRun
          ({ connected := false, pendingDisconnect := false,
             delivered := [WsMsgType.complete] } : WsClientState)
          [WsEvent.recv WsMsgType.progress]).delivered =
        [WsMsgType.complete]) := by
  refine ⟨⟨rfl, rfl, rfl⟩, ?_⟩
  exact (c3_terminal_then_closed
    ({ connected := true, pendingDisconnect := false, delivered := [] })
    ({ connected := false, pendingDisconnect := false, delivered := [WsMsgType.complete] })
    WsMsgType.complete [WsEvent.recv WsMsgType.progress] rfl rfl rfl).2.2.2

/-- Claim C5: with a validating form, a failed login verification — the
portal reporting failure or the request throwing — makes exactly one
`api.verifyLogin` call, surfaces the failure as a login error message,
and does not log the user in; there is no retry. -/
theorem c5_failed_login_terminal (username password domain : String)
    (outcome : VerifyOutcome) (hvalid : validateForm username password = [])
    (hfail : outcome ≠ VerifyOutcome.success) :
    (handleSubmit username password domain outcome).verifyCalls = 1
    ∧ (handleSubmit username password domain outcome).loginError ≠ none
    ∧ (handleSubmit username password domain outcome).sessionCreated = none := by
  cases outcome with
  | success => exact absurd rfl hfail
  | failed m => simp [handleSubmit, hvalid]
  | requestFailed m => simp [handleSubmit, hvalid]

/-- Claim C5 witness: the theorem at a concrete failed login. -/
theorem c5_witness :
    (validateForm "AJITESH001" "pw" = []
      ∧ VerifyOutcome.failed none ≠ VerifyOutcome.success)
    ∧ ((handleSubmit "AJITESH001" "pw" "Student" (VerifyOutcome.failed none)).verifyCalls = 1
      ∧ (handleSubmit "AJITESH001" "pw" "Student" (VerifyOutcome.failed none)).loginError ≠ none
      ∧ (handleSubmit "AJITESH001" "pw" "Student"
          (VerifyOutcome.failed none)).sessionCreated = none) := by
  refine ⟨⟨by decide, by decide⟩, ?_⟩
  exact c5_failed_login_terminal "AJITESH001" "pw" "Student"
    (VerifyOutcome.failed none) (by decide) (by decide)

/-- Claim C9: for every received message, all handlers registered for
its type are invoked in registration order — even when some of them
throw, the per-handler catch keeps the rest running — and the automatic
disconnect is scheduled for a `complete` or `error` message regardless
of handler exceptions. -/
theorem c9_handlers_all_invoked (r : HandlerRegistry) (t : WsMsgType) :
    (handleMessageDispatch r t).invoked = (handlersFor r t).map Handler.id
    ∧ (handleMessageDispatch r t).disconnectScheduled = isTerminalMsg t := by
  refine ⟨?_, rfl⟩
  show forEachCaught (handlersFor r t) = (handlersFor r t).map Handler.id
  induction handlersFor r t with
  | nil => rfl
  | cons h rest ih =>
      cases hth : h.throws <;>
        simp [forEachCaught, invokeHandler, hth, ih]

/-- Claim C4: the search surface keeps "empty database" and "no results
matched" apart — when the database status is not populated the search
button is disabled (search rejected) and the empty-database warning is
what the form shows, while a successful search returning an empty list
shows the no-matching-universities card; the two indicators can never
render together. -/
theorem c4_empty_db_vs_no_match (s : SearchViewState) :
    (searchButtonEnabled s = true → dbPopulated s = true)
    ∧ (dbPopulated s = false → searchButtonEnabled s = false)
    ∧ (emptyDbWarningShown s = true → noMatchMessageShown s = false)
    ∧ (s.isSearching = false → s.results = some [] →
        noMatchMessageShown s = true ∧ emptyDbWarningShown s = false) := by
  obtain ⟨db, res, err, searching⟩ := s
  refine ⟨?_, ?_, ?_, ?_⟩
  · cases searching <;> cases db <;> simp [searchButtonEnabled, dbPopulated]
  · cases searching <;> cases db <;> simp [searchButtonEnabled, dbPopulated]
  · cases res <;>
      simp [emptyDbWarningShown, noMatchMessageShown, showForm, showResults]
  · intro hs hres
    subst hs
    subst hres
    cases db <;>
      simp [noMatchMessageShown, emptyDbWarningShown, showForm, showResults]

/-- Claim C4 witness: the theorem at a concrete idle state whose search
returned an empty list against a populated database. -/
theorem c4_witness :
    ((⟨some ⟨true, 509, 24619, none⟩, some [], none, false⟩ :
        SearchViewState).isSearching = false
      ∧ (⟨some ⟨true, 509, 24619, none⟩, some [], none, false⟩ :
          SearchViewState).results = some [])
    ∧ (noMatchMessageShown ⟨some ⟨true, 509, 24619, none⟩, some [], none, false⟩ = true
      ∧ emptyDbWarningShown ⟨some ⟨true, 509, 24619, none⟩, some [], none, false⟩ = false) := by
  refine ⟨⟨rfl, rfl⟩, ?_⟩
  exact (c4_empty_db_vs_no_match
    ⟨some ⟨true, 509, 24619, none⟩, some [], none, false⟩).2.2.2 rfl rfl

/-- Claim C6: while the tracked job is running, `start` is rejected with
`AlreadyRunningError`; once that job carries a terminal status, `start`
succeeds and records the new running job; and the admin panel does not
offer the start button while the tracked job's status is running. -/
theorem c6_single_running_job (r : JobRegistry) (j : ScrapeJobView)
    (oldId newId newId' : Nat) (st : JobStatus)
    (hrun : r.latest = some (oldId, JobStatus.running))
    (hterm : isTerminalJobStatus st = true)
    (hjrun : j.status = JobStatus.running) :
    registryStart r newId = Except.error StartDenied.alreadyRunning
    ∧ registryStart (registrySetStatus r st) newId' =
        Except.ok { latest := some (newId', JobStatus.running) }
    ∧ adminOffersStart (some j) = false := by
  refine ⟨?_, ?_, ?_⟩
  · simp [registryStart, hrun]
  · have hne : ¬st = JobStatus.running := by
      cases st <;> simp_all [isTerminalJobStatus]
    simp [registryStart, registrySetStatus, hrun, hne]
  · simp [adminOffersStart, hjrun]

/-- Claim C6 witness: the theorem at a concrete registry tracking job 1
as running, which then completes, followed by a successful start of
job 2. -/
theorem c6_witness :
    (({ latest := some (1, JobStatus.running) } : JobRegistry).latest =
        some (1, JobStatus.running)
      ∧ isTerminalJobStatus JobStatus.completed = true
      ∧ ({ jobId := 1, status := JobStatus.running } : ScrapeJobView).status =
          JobStatus.running)
    ∧ (registryStart { latest := some (1, JobStatus.running) } 2 =
        Except.error StartDenied.alreadyRunning
      ∧ registryStart
          (registrySetStatus { latest := some (1, JobStatus.running) } JobStatus.completed)
          2 = Except.ok { latest := some (2, JobStatus.running) }
      ∧ adminOffersStart (some { jobId := 1, status := JobStatus.running }) = false) := by
  refine ⟨⟨rfl, rfl, rfl⟩, ?_⟩
  exact c6_single_running_job ({ latest := some (1, JobStatus.running) })
    ({ jobId := 1, status := JobStatus.running }) 1 2 2 JobStatus.completed rfl rfl rfl

/-- Auxiliary: `List.any` with a code-equality predicate is membership of the code
among the mapped codes. -/
theorem any_code_eq_mem (selected : List ModuleEntry) (code : String) :
    (selected.any (fun m => m.code == code) = true) ↔
      code ∈ selected.map ModuleEntry.code := by
  simp [List.any_eq_true, List.mem_map]

/-- Claim C10: the module selector's add operation trims and uppercases
the entered code, leaves the list unchanged when the normalized code is
empty or already present, and otherwise appends exactly one entry with
that code (name falling back to the code); it preserves distinctness of
codes; and the remove operation keeps exactly the entries whose code
differs. -/
theorem c10_module_selector (selected : List ModuleEntry) (rawCode rawName c : String) :
    (jsToUpper (jsTrim rawCode) = "" →
      handleAddModule selected rawCode rawName = selected)
    ∧ (jsToUpper (jsTrim rawCode) ≠ "" →
        jsToUpper (jsTrim rawCode) ∈ selected.map ModuleEntry.code →
        handleAddModule selected rawCode rawName = selected)
    ∧ (jsToUpper (jsTrim rawCode) ≠ "" →
        jsToUpper (jsTrim rawCode) ∉ selected.map ModuleEntry.code →
        handleAddModule selected rawCode rawName =
          selected ++ [{ code := jsToUpper (jsTrim rawCode),
                         name := if jsTrim rawName = "" then jsToUpper (jsTrim rawCode)
                                 else jsTrim rawName }])
    ∧ ((selected.map ModuleEntry.code).Nodup →
        ((handleAddModule selected rawCode rawName).map ModuleEntry.code).Nodup)
    ∧ (∀ m, m ∈ handleRemoveModule selected c ↔ m ∈ selected ∧ m.code ≠ c) := by
  refine ⟨?_, ?_, ?_, ?_, ?_⟩
  · intro h
    simp [handleAddModule, h]
  · intro h hmem
    have hany := (any_code_eq_mem selected (jsToUpper (jsTrim rawCode))).2 hmem
    simp [handleAddModule, h, hany]
  · intro h hmem
    have hany : selected.any (fun m => m.code == jsToUpper (jsTrim rawCode)) = false := by
      rw [Bool.eq_false_iff]
      intro hc
      exact hmem ((any_code_eq_mem selected (jsToUpper (jsTrim rawCode))).1 hc)
    simp [handleAddModule, h, hany]
  · intro hnd
    by_cases hu : jsToUpper (jsTrim rawCode) = ""
    · simpa [handleAddModule, hu] using hnd
    · by_cases hmem :
        selected.any (fun m => m.code == jsToUpper (jsTrim rawCode)) = true
      · simpa [handleAddModule, hu, hmem] using hnd
      · have hnotin : jsToUpper (jsTrim rawCode) ∉ selected.map ModuleEntry.code :=
          fun hin => hmem ((any_code_eq_mem selected (jsToUpper (jsTrim rawCode))).2 hin)
        simp [handleAddModule, hu, hmem, List.nodup_append, hnd, hnotin]
  · intro m
    simp [handleRemoveModule, List.mem_filter, bne_iff_ne]

/-- Claim C10 witness: the theorem's distinctness-preservation part at a
concrete add of " sc4002 " to a list already holding SC4001. -/
theorem c10_witness :
    (([({ code := "SC4001", name := "SC4001" } : ModuleEntry)].map
        ModuleEntry.code).Nodup)
    ∧ ((handleAddModule [{ code := "SC4001", name := "SC4001" }]
          " sc4002 " "").map ModuleEntry.code).Nodup := by
  refine ⟨by decide, ?_⟩
  exact (c10_module_selector [{ code := "SC4001", name := "SC4001" }]
    " sc4002 " "" "X").2.2.2.1 (by decide)

end ExchangeFinder
